import Mathlib

/-!
Verification development for the conversation/auto-reply core of the
Lead-contact backend.  The definitions below are shallow embeddings of the
Python source: `core/auth/token_refresher.py`,
`db/mongodb/conversation_repository.py`, `db/mongodb/campaign_repository.py`,
`db/mongodb/provider_token_repository.py` and the internal route handlers in
`api/routes/internal_routes.py`.  Timestamps are modelled as integers
(minutes); the Mongo collections are modelled as lists of records, and
`find_one_and_update` by id is modelled as a keyed map over the list.
-/

namespace LeadContact

abbrev Time := Int

/-! ## TokenLifecycle — `core/auth/token_refresher.py` -/

/-- `ProviderToken` domain model (`core/interfaces/repositories.py`).
`refresh_token` is a plain string in the source; the Python truthiness test
`if not tokens.refresh_token` fires exactly when it is empty. -/
structure ProviderToken where
  id : String
  user_id : String
  provider : String
  access_token : String
  refresh_token : String
  expiry : Time
  deriving Repr, DecidableEq

/-- OAuth token-exchange response (`core/interfaces/oauth_provider.py`). -/
structure TokenResponse where
  access_token : String
  refresh_token : String
  expiry : Time
  deriving Repr, DecidableEq

/-- `self.refresh_buffer_minutes = 5` in `TokenRefresher.__init__`. -/
def refresh_buffer_minutes : Int := 5

/-- The validity test of `ensure_valid_token` (token_refresher.py lines
44-45): `buffer_time = utcnow() + timedelta(minutes=buffer)` and the token is
treated as still valid iff `tokens.expiry > buffer_time`. -/
def is_token_valid (expiry now buffer : Int) : Bool :=
  decide (now + buffer < expiry)

/-- The spec's second formulation of validity, written from the spec text
"`isValid(T, now)` is false whenever `T.expiry - now < bufferMinutes`; true
otherwise" — kept as a separate definition so it can be compared with the
source-derived `is_token_valid`. -/
def is_token_valid_spec_alt (expiry now buffer : Int) : Bool :=
  ! decide (expiry - now < buffer)

/-- Result of `ensure_valid_token`: the returned `Optional[str]`, the token
record left in storage for this (user, provider), and how many times the
refresh capability (`oauth_provider.refresh_token`) was invoked. -/
structure EnsureValidResult where
  result : Option String
  stored : Option ProviderToken
  refresh_calls : Nat
  deriving Repr, DecidableEq

/-- `TokenRefresher.ensure_valid_token` (token_refresher.py lines 25-72).
`stored` is the token row for this (user, provider); `refreshCap` models
`oauth_provider.refresh_token`, with `Except.error` standing for a raised
exception (caught by the blanket `except`, which returns `None` and leaves
storage untouched).  On success the row is updated in place via
`update_tokens` (a `$set` of access token, refresh token and expiry) and the
new access token is returned. -/
def ensure_valid_token (now : Time) (refreshCap : String → Except String TokenResponse)
    (stored : Option ProviderToken) : EnsureValidResult :=
  match stored with
  | none => ⟨none, none, 0⟩
  | some tokens =>
    if is_token_valid tokens.expiry now refresh_buffer_minutes then
      ⟨some tokens.access_token, some tokens, 0⟩
    else if tokens.refresh_token = "" then
      ⟨none, some tokens, 0⟩
    else
      match refreshCap tokens.refresh_token with
      | Except.error _ => ⟨none, some tokens, 1⟩
      | Except.ok resp =>
        let updated : ProviderToken :=
          { tokens with
            access_token := resp.access_token
            refresh_token := resp.refresh_token
            expiry := resp.expiry }
        ⟨some updated.access_token, some updated, 1⟩

/-! ## Data model — `core/interfaces/repositories.py` and `db/mongodb/schemas.py` -/

/-- `Conversation` domain model (`core/interfaces/repositories.py`). -/
structure Conversation where
  id : String
  user_id : String
  campaign_id : String
  email_log_id : String
  contact_email : String
  gmail_thread_id : String
  status : String
  message_count : Nat
  auto_replies_sent : Nat
  last_message_at : Option Time
  last_reply_at : Option Time
  created_at : Time
  updated_at : Time
  deriving Repr, DecidableEq

/-- `ConversationMessage` domain model (`core/interfaces/repositories.py`). -/
structure ConversationMessage where
  id : String
  conversation_id : String
  campaign_id : String
  direction : String
  from_email : String
  to_email : String
  subject : String
  body : String
  gmail_message_id : String
  is_auto_reply : Bool
  sent_at : Time
  created_at : Time
  deriving Repr, DecidableEq

/-- `Campaign` domain model (`core/interfaces/repositories.py`). -/
structure Campaign where
  id : String
  user_id : String
  name : String
  csv_source : String
  template_id : String
  prompt_id : Option String
  status : String
  total_contacts : Nat
  processed : Nat
  sent : Nat
  failed : Nat
  trigger_run_id : Option String
  error_message : Option String
  auto_reply_enabled : Bool
  auto_reply_subject : String
  auto_reply_body : String
  max_replies_per_thread : Nat
  replies_count : Nat
  created_at : Time
  started_at : Option Time
  completed_at : Option Time
  updated_at : Time
  deriving Repr, DecidableEq

/-- A raw campaign document as read back from the `campaigns` collection:
the fields that `_document_to_campaign` accesses with `doc.get(..., default)`
are optional, the rest are required (`campaign_repository.py` lines 20-45). -/
structure CampaignDoc where
  id : String
  user_id : String
  name : String
  csv_source : String
  template_id : String
  prompt_id : Option String
  status : String
  total_contacts : Nat
  processed : Nat
  sent : Nat
  failed : Nat
  trigger_run_id : Option String
  error_message : Option String
  auto_reply_enabled : Option Bool
  auto_reply_subject : Option String
  auto_reply_body : Option String
  max_replies_per_thread : Option Nat
  replies_count : Option Nat
  created_at : Time
  started_at : Option Time
  completed_at : Option Time
  updated_at : Time
  deriving Repr, DecidableEq

/-- `MongoCampaignRepository._document_to_campaign` (campaign_repository.py
lines 20-45): converts a stored document to the `Campaign` model, supplying
defaults for the auto-reply fields kept for backwards compatibility. -/
def document_to_campaign (doc : CampaignDoc) : Campaign :=
  { id := doc.id
    user_id := doc.user_id
    name := doc.name
    csv_source := doc.csv_source
    template_id := doc.template_id
    prompt_id := doc.prompt_id
    status := doc.status
    total_contacts := doc.total_contacts
    processed := doc.processed
    sent := doc.sent
    failed := doc.failed
    trigger_run_id := doc.trigger_run_id
    error_message := doc.error_message
    auto_reply_enabled := doc.auto_reply_enabled.getD true
    auto_reply_subject := doc.auto_reply_subject.getD "Re: \x7b\x7boriginal_subject\x7d\x7d"
    auto_reply_body := doc.auto_reply_body.getD
      "Thank you for your reply! We have received your message and will get back to you shortly."
    max_replies_per_thread := doc.max_replies_per_thread.getD 5
    replies_count := doc.replies_count.getD 0
    created_at := doc.created_at
    started_at := doc.started_at
    completed_at := doc.completed_at
    updated_at := doc.updated_at }

/-! ## Store — the Mongo collections touched by the conversation core -/

/-- The collections used by the conversation/auto-reply core:
`conversations`, `conversation_messages` and `campaigns`.  `next_id` stands
for the ObjectId generator (fresh ids for inserted documents).  New documents
are prepended, which matches the only property the source relies on: lookup
by a key finds the inserted document. -/
structure Store where
  conversations : List Conversation
  messages : List ConversationMessage
  campaigns : List Campaign
  next_id : Nat
  deriving Repr, DecidableEq

/-- `find_one({"_id": conversation_id})` on the conversations collection. -/
def get_conv_by_id (st : Store) (cid : String) : Option Conversation :=
  st.conversations.find? (fun c => c.id == cid)

/-- `find_one({"gmail_thread_id": ...})` — `get_by_thread_id`
(conversation_repository.py lines 84-87). -/
def get_by_thread_id (st : Store) (tid : String) : Option Conversation :=
  st.conversations.find? (fun c => c.gmail_thread_id == tid)

/-- `find_one_and_update({"_id": cid}, update, return_document=True)` on the
conversations collection: applies `f` to the matching document and returns
the updated document together with the new collection state. -/
def find_one_and_update_conv (cid : String) (f : Conversation → Conversation)
    (st : Store) : Option Conversation × Store :=
  ((st.conversations.find? (fun c => c.id == cid)).map f,
   { st with conversations :=
       st.conversations.map (fun c => if c.id == cid then f c else c) })

/-- `find_one_and_update({"_id": cid}, update, return_document=True)` on the
campaigns collection. -/
def find_one_and_update_campaign (cid : String) (f : Campaign → Campaign)
    (st : Store) : Option Campaign × Store :=
  ((st.campaigns.find? (fun c => c.id == cid)).map f,
   { st with campaigns :=
       st.campaigns.map (fun c => if c.id == cid then f c else c) })

/-- `find_one({"_id": campaign_id})` on the campaigns collection. -/
def get_campaign_by_id (st : Store) (cid : String) : Option Campaign :=
  st.campaigns.find? (fun c => c.id == cid)

/-- The `sent_at` ordering used by `get_messages` is total. -/
instance : IsTotal ConversationMessage (fun a b => a.sent_at ≤ b.sent_at) :=
  ⟨fun a b => le_total a.sent_at b.sent_at⟩

/-- The `sent_at` ordering used by `get_messages` is transitive. -/
instance : IsTrans ConversationMessage (fun a b => a.sent_at ≤ b.sent_at) :=
  ⟨fun _ _ _ hab hbc => le_trans hab hbc⟩

/-! ## ConversationStore / MessageLedger — `db/mongodb/conversation_repository.py` -/

/-- `create_conversation` (conversation_repository.py lines 55-82): inserts a
new conversation document with `status="active"`, `message_count=1`,
`auto_replies_sent=0`, `last_message_at=utcnow()` and returns it. -/
def create_conversation (user_id campaign_id email_log_id contact_email
    gmail_thread_id : String) (now : Time) (st : Store) : Conversation × Store :=
  let conv : Conversation :=
    { id := toString st.next_id
      user_id := user_id
      campaign_id := campaign_id
      email_log_id := email_log_id
      contact_email := contact_email
      gmail_thread_id := gmail_thread_id
      status := "active"
      message_count := 1
      auto_replies_sent := 0
      last_message_at := some now
      last_reply_at := none
      created_at := now
      updated_at := now }
  (conv, { st with conversations := conv :: st.conversations, next_id := st.next_id + 1 })

/-- Arguments of `add_message` (conversation_repository.py lines 167-199). -/
structure AddMessageArgs where
  conversation_id : String
  campaign_id : String
  direction : String
  from_email : String
  to_email : String
  subject : String
  body : String
  gmail_message_id : String
  is_auto_reply : Bool
  sent_at : Time
  deriving Repr, DecidableEq

/-- `add_message` (conversation_repository.py lines 167-199): pure insert of
one message document into `conversation_messages`; returns it. -/
def add_message (args : AddMessageArgs) (now : Time) (st : Store) :
    ConversationMessage × Store :=
  let msg : ConversationMessage :=
    { id := toString st.next_id
      conversation_id := args.conversation_id
      campaign_id := args.campaign_id
      direction := args.direction
      from_email := args.from_email
      to_email := args.to_email
      subject := args.subject
      body := args.body
      gmail_message_id := args.gmail_message_id
      is_auto_reply := args.is_auto_reply
      sent_at := args.sent_at
      created_at := now }
  (msg, { st with messages := msg :: st.messages, next_id := st.next_id + 1 })

/-- `message_exists` (conversation_repository.py lines 217-220):
`count_documents({"gmail_message_id": ...}) > 0`. -/
def message_exists (gm : String) (st : Store) : Bool :=
  decide (0 < st.messages.countP (fun m => m.gmail_message_id == gm))

/-- `get_messages` (conversation_repository.py lines 201-215): the messages
of one conversation sorted by `sent_at` ascending, with Mongo's `skip` and
`limit` applied after the sort.  The source's defaults are `skip=0`,
`limit=100`. -/
def get_messages (st : Store) (cid : String) (skip limit : Nat) :
    List ConversationMessage :=
  ((((st.messages.filter (fun m => m.conversation_id == cid)).insertionSort
      (fun a b => a.sent_at ≤ b.sent_at)).drop skip).take limit)

/-- `get_messages` at its default arguments (`skip=0`, `limit=100`). -/
def get_messages_default (st : Store) (cid : String) : List ConversationMessage :=
  get_messages st cid 0 100

/-- The per-document update of `update_on_reply` (conversation_repository.py
lines 114-136): `$inc message_count by 1`, stamp `last_message_at` and
`updated_at`, and when inbound also `last_reply_at`. -/
def update_on_reply_doc (is_inbound : Bool) (now : Time) (c : Conversation) :
    Conversation :=
  { c with
    message_count := c.message_count + 1
    last_message_at := some now
    last_reply_at := if is_inbound then some now else c.last_reply_at
    updated_at := now }

/-- `update_on_reply` (conversation_repository.py lines 114-136). -/
def update_on_reply (cid : String) (is_inbound : Bool) (now : Time) (st : Store) :
    Option Conversation × Store :=
  find_one_and_update_conv cid (update_on_reply_doc is_inbound now) st

/-- The per-document update of `increment_auto_replies`
(conversation_repository.py lines 138-151): `$inc auto_replies_sent by 1 and
message_count by 1`, stamp `last_message_at` and `updated_at`. -/
def increment_auto_replies_doc (now : Time) (c : Conversation) : Conversation :=
  { c with
    auto_replies_sent := c.auto_replies_sent + 1
    message_count := c.message_count + 1
    last_message_at := some now
    updated_at := now }

/-- `increment_auto_replies` (conversation_repository.py lines 138-151). -/
def increment_auto_replies (cid : String) (now : Time) (st : Store) :
    Option Conversation × Store :=
  find_one_and_update_conv cid (increment_auto_replies_doc now) st

/-- The per-document update of `update_status` (conversation_repository.py
lines 153-164): an unconditional `$set` of `status` and `updated_at`. -/
def update_status_doc (status : String) (now : Time) (c : Conversation) :
    Conversation :=
  { c with status := status, updated_at := now }

/-- `update_status` (conversation_repository.py lines 153-164). -/
def update_status (cid status : String) (now : Time) (st : Store) :
    Option Conversation × Store :=
  find_one_and_update_conv cid (update_status_doc status now) st

/-! ## CampaignProgressTracker — `db/mongodb/campaign_repository.py` -/

/-- The per-document update of `update_progress` (campaign_repository.py
lines 154-180): an absolute `$set` of `processed`, `sent`, `failed` and
`updated_at`.  No comparison against `total_contacts` appears in the
source. -/
def update_progress_doc (processed sent failed : Nat) (now : Time)
    (c : Campaign) : Campaign :=
  { c with processed := processed, sent := sent, failed := failed, updated_at := now }

/-- `update_progress` (campaign_repository.py lines 154-180). -/
def update_progress (cid : String) (processed sent failed : Nat) (now : Time)
    (st : Store) : Option Campaign × Store :=
  find_one_and_update_campaign cid (update_progress_doc processed sent failed now) st

/-- `increment_replies_count` (campaign_repository.py lines 273-287):
`$inc replies_count by 1`, stamp `updated_at`. -/
def increment_replies_count (cid : String) (now : Time) (st : Store) :
    Option Campaign × Store :=
  find_one_and_update_campaign cid
    (fun c => { c with replies_count := c.replies_count + 1, updated_at := now }) st

/-! ## Internal routes — `api/routes/internal_routes.py` -/

/-- The conversation-creation block of `create_email_log`
(internal_routes.py lines 73-101), reached when the log was sent and carries
a thread id: look the thread up with `get_by_thread_id`; if absent, create
the conversation and append the initial outbound message; if present, leave
everything unchanged.  Returns the conversation for the thread. -/
def get_or_create (user_id campaign_id email_log_id to_email subject body
    gmail_thread_id gmail_message_id : String) (sent_at now : Time) (st : Store) :
    Conversation × Store :=
  match get_by_thread_id st gmail_thread_id with
  | some existing => (existing, st)
  | none =>
    let (conv, st1) := create_conversation user_id campaign_id email_log_id
      to_email gmail_thread_id now st
    let (_, st2) := add_message
      { conversation_id := conv.id
        campaign_id := campaign_id
        direction := "outbound"
        from_email := "me"
        to_email := to_email
        subject := subject
        body := body
        gmail_message_id := gmail_message_id
        is_auto_reply := false
        sent_at := sent_at } now st1
    (conv, st2)

/-- Request body of the `/internal/record-reply` route. -/
structure RecordReplyRequest where
  conversation_id : String
  campaign_id : String
  gmail_message_id : String
  from_email : String
  subject : String
  body : String
  replied_at : Time
  deriving Repr, DecidableEq

/-- `record_reply` (internal_routes.py lines 197-237): append the inbound
message, `update_on_reply(is_inbound=True)` on the conversation, and
`increment_replies_count` on the campaign. -/
def record_reply (req : RecordReplyRequest) (now : Time) (st : Store) : Store :=
  let (_, st1) := add_message
    { conversation_id := req.conversation_id
      campaign_id := req.campaign_id
      direction := "inbound"
      from_email := req.from_email
      to_email := "me"
      subject := req.subject
      body := req.body
      gmail_message_id := req.gmail_message_id
      is_auto_reply := false
      sent_at := req.replied_at } now st
  let (_, st2) := update_on_reply req.conversation_id true now st1
  (increment_replies_count req.campaign_id now st2).2

/-- The caller convention required by the spec around `record_reply`: the
upstream poller first asks `/internal/message-exists/{id}` and only calls
`/internal/record-reply` when the message is new.  Modelled as the guarded
composition of the two route handlers. -/
def gated_record_reply (req : RecordReplyRequest) (now : Time) (st : Store) : Store :=
  if message_exists req.gmail_message_id st then st else record_reply req now st

/-- Request body of the `/internal/record-auto-reply` route. -/
structure RecordAutoReplyRequest where
  conversation_id : String
  campaign_id : String
  gmail_message_id : String
  to_email : String
  subject : String
  body : String
  deriving Repr, DecidableEq

/-- `record_auto_reply` (internal_routes.py lines 250-279): append the
outbound auto-reply message, then `increment_auto_replies` on the
conversation. -/
def record_auto_reply (req : RecordAutoReplyRequest) (now : Time) (st : Store) :
    Store :=
  let (_, st1) := add_message
    { conversation_id := req.conversation_id
      campaign_id := req.campaign_id
      direction := "outbound"
      from_email := "me"
      to_email := req.to_email
      subject := req.subject
      body := req.body
      gmail_message_id := req.gmail_message_id
      is_auto_reply := true
      sent_at := now } now st
  (increment_auto_replies req.conversation_id now st1).2

/-- Modelled from the spec: the `AutoReplyPolicy.shouldAutoReply` decision
(spec §4.4) lives in the external Trigger.dev job, not under `src/`; the
spec defines it as false when auto-reply is disabled, when the reply cap is
reached, or when the conversation is not active, and true otherwise. -/
def should_auto_reply (camp : Campaign) (conv : Conversation) : Bool :=
  camp.auto_reply_enabled
    && decide (conv.auto_replies_sent < camp.max_replies_per_thread)
    && conv.status == "active"

/-- One gated auto-reply step on a conversation document, as the spec's
caller convention prescribes: re-fetch, consult `should_auto_reply`, and only
then commit `increment_auto_replies`. -/
def gated_auto_reply_step (camp : Campaign) (now : Time) (c : Conversation) :
    Conversation :=
  if should_auto_reply camp c then increment_auto_replies_doc now c else c

/-! ## Concrete fixtures used by counterexamples and witnesses -/

/-- A freshly created conversation, as `create_conversation` produces it. -/
def freshConv : Conversation :=
  { id := "c1"
    user_id := "u1"
    campaign_id := "camp1"
    email_log_id := "l1"
    contact_email := "a@b.c"
    gmail_thread_id := "th1"
    status := "active"
    message_count := 1
    auto_replies_sent := 0
    last_message_at := some 0
    last_reply_at := none
    created_at := 0
    updated_at := 0 }

/-- A campaign with auto-reply on, a cap of one reply per thread, and a
single contact. -/
def cappedCampaign : Campaign :=
  { id := "camp1"
    user_id := "u1"
    name := "n"
    csv_source := "s"
    template_id := "t"
    prompt_id := none
    status := "running"
    total_contacts := 1
    processed := 0
    sent := 0
    failed := 0
    trigger_run_id := none
    error_message := none
    auto_reply_enabled := true
    auto_reply_subject := "Re: s"
    auto_reply_body := "b"
    max_replies_per_thread := 1
    replies_count := 0
    created_at := 0
    started_at := none
    completed_at := none
    updated_at := 0 }

/-- A store holding the fresh conversation and the capped campaign. -/
def smallStore : Store :=
  { conversations := [freshConv]
    messages := []
    campaigns := [cappedCampaign]
    next_id := 10 }

/-- An empty store. -/
def emptyStore : Store :=
  { conversations := [], messages := [], campaigns := [], next_id := 0 }

/-- A store whose only conversation is closed. -/
def closedStore : Store :=
  { conversations := [{ freshConv with status := "closed" }]
    messages := []
    campaigns := []
    next_id := 5 }

/-- Two record-auto-reply requests for the same conversation. -/
def autoReplyReq1 : RecordAutoReplyRequest :=
  ⟨"c1", "camp1", "gm1", "a@b.c", "Re: s", "b"⟩

/-- Second auto-reply request (a distinct provider message id). -/
def autoReplyReq2 : RecordAutoReplyRequest :=
  ⟨"c1", "camp1", "gm2", "a@b.c", "Re: s", "b"⟩

/-- An inbound-reply request. -/
def replyReq : RecordReplyRequest :=
  ⟨"c1", "camp1", "gmr1", "a@b.c", "Re: s", "thanks", 5⟩

/-- A message of conversation `c1`, indexed by a running number. -/
def mkMsg (i : Nat) : ConversationMessage :=
  { id := toString i
    conversation_id := "c1"
    campaign_id := "camp1"
    direction := "inbound"
    from_email := "a@b.c"
    to_email := "me"
    subject := "s"
    body := "b"
    gmail_message_id := toString i
    is_auto_reply := false
    sent_at := 0
    created_at := 0 }

/-- A store holding 101 messages of one conversation — one more than the
default `limit` of `get_messages`. -/
def manyMessagesStore : Store :=
  { conversations := []
    messages := (List.range 101).map mkMsg
    campaigns := []
    next_id := 200 }

/-! ## Helper lemmas -/

/-- Updating every element whose key matches `cid` commutes with looking the
key up: the lookup after the update returns the updated document.  This is
the core fact about the `find_one_and_update`-by-id model. -/
theorem find?_map_keyed {α : Type} (key : α → String) (cid : String)
    (f : α → α) (hf : ∀ c, key (f c) = key c) :
    ∀ l : List α,
      (l.map (fun c => if key c == cid then f c else c)).find? (fun c => key c == cid)
        = (l.find? (fun c => key c == cid)).map f := by
  intro l
  induction l with
  | nil => rfl
  | cons a l ih =>
    by_cases h : (key a == cid) = true
    · have hfa : (key (f a) == cid) = true := by rw [hf]; exact h
      rw [List.map_cons, if_pos h,
        List.find?_cons_of_pos (p := fun c => key c == cid) _ hfa,
        List.find?_cons_of_pos (p := fun c => key c == cid) _ h, Option.map_some']
    · rw [List.map_cons, if_neg h,
        List.find?_cons_of_neg (p := fun c => key c == cid) _ h,
        List.find?_cons_of_neg (p := fun c => key c == cid) _ h, ih]

/-! ## Claim C5 -/

/-- Claim C5 (counterexample): the two spec formulations of token validity
disagree at the boundary `expiry - now = bufferMinutes`.  With `expiry = 5`,
`now = 0`, `buffer = 5`, the source's test (`expiry > now + buffer`) says
invalid while the wording "false whenever `expiry - now < buffer`; true
otherwise" says valid. -/
theorem is_token_valid_boundary_counterexample :
    is_token_valid 5 0 5 = false ∧ is_token_valid_spec_alt 5 0 5 = true := by
  decide

/-- Claim C5 (amended): `is_token_valid` is true iff
`expiry > now + bufferMinutes`; equivalently it is false whenever
`expiry - now ≤ bufferMinutes` (non-strict at the boundary) and true
otherwise. -/
theorem is_token_valid_iff (expiry now buffer : Int) :
    (is_token_valid expiry now buffer = true ↔ now + buffer < expiry)
    ∧ (is_token_valid expiry now buffer = false ↔ expiry - now ≤ buffer) := by
  constructor
  · simp [is_token_valid]
  · simp [is_token_valid]
    omega

/-! ## Claim C6 -/

/-- Claim C6: `ensure_valid_token` mutates the stored token only on a
successful refresh.  When the existing token is valid it is returned
unchanged with no refresh call and no write; and whenever the stored record
after the call differs from the one before it, the refresh capability
returned a success, the stored record is exactly the refreshed token, and
its access token is what the call returned. -/
theorem ensure_valid_mutates_only_on_success (now : Time)
    (cap : String → Except String TokenResponse) (tok : ProviderToken) :
    (is_token_valid tok.expiry now refresh_buffer_minutes = true →
      ensure_valid_token now cap (some tok)
        = ⟨some tok.access_token, some tok, 0⟩)
    ∧ ((ensure_valid_token now cap (some tok)).stored ≠ some tok →
      ∃ resp, cap tok.refresh_token = Except.ok resp
        ∧ (ensure_valid_token now cap (some tok)).stored
            = some { tok with
                access_token := resp.access_token
                refresh_token := resp.refresh_token
                expiry := resp.expiry }
        ∧ (ensure_valid_token now cap (some tok)).result = some resp.access_token) := by
  constructor
  · intro hvalid
    simp [ensure_valid_token, hvalid]
  · intro hchanged
    unfold ensure_valid_token at *
    by_cases hvalid : is_token_valid tok.expiry now refresh_buffer_minutes
    · simp [hvalid] at hchanged
    · by_cases hrt : tok.refresh_token = ""
      · simp [hvalid, hrt] at hchanged
      · cases hcap : cap tok.refresh_token with
        | error e => simp [hvalid, hrt, hcap] at hchanged
        | ok resp =>
          refine ⟨resp, rfl, ?_, ?_⟩ <;> simp [hvalid, hrt, hcap]

/-- Claim C6 (witness): a concrete valid token is returned unchanged with no
refresh call, and a concrete failing refresh leaves the stored record in
place. -/
theorem ensure_valid_mutates_only_on_success_witness :
    ensure_valid_token 0 (fun _ => Except.error "network")
        (some ⟨"t1", "u1", "google", "atk", "rtk", 100⟩)
      = ⟨some "atk", some ⟨"t1", "u1", "google", "atk", "rtk", 100⟩, 0⟩ :=
  (ensure_valid_mutates_only_on_success 0 (fun _ => Except.error "network")
    ⟨"t1", "u1", "google", "atk", "rtk", 100⟩).1 (by decide)

/-! ## Claim C2 -/

/-- Claim C2 (counterexample): the three failure cases of
`ensure_valid_token` are not distinguishable typed outcomes — the no-record
case and the missing-refresh-token case both return the same bare `None`.
(The concrete token is expired, has no refresh token, and the capability
would fail if consulted; no refresh call is made.) -/
theorem ensure_valid_failures_indistinguishable_counterexample :
    (ensure_valid_token 0 (fun _ => Except.error "network") none).result = none
    ∧ (ensure_valid_token 0 (fun _ => Except.error "network")
        (some ⟨"t1", "u1", "google", "atk", "", (-1)⟩)).result = none
    ∧ (ensure_valid_token 0 (fun _ => Except.error "network")
        (some ⟨"t1", "u1", "google", "atk", "", (-1)⟩)).refresh_calls = 0 := by
  decide

/-- Claim C2 (amended): all three failure cases of `ensure_valid_token` —
no token record, missing refresh token, and failed refresh — return the same
untyped `None` (they are distinguished only in log messages, not in the
returned value); the missing-refresh-token case does fail without invoking
the refresh capability, and no failure case touches the stored record. -/
theorem ensure_valid_failures_collapse (now : Time)
    (cap : String → Except String TokenResponse) (tok : ProviderToken) (e : String) :
    (ensure_valid_token now cap none = ⟨none, none, 0⟩)
    ∧ (is_token_valid tok.expiry now refresh_buffer_minutes = false →
        tok.refresh_token = "" →
        ensure_valid_token now cap (some tok) = ⟨none, some tok, 0⟩)
    ∧ (is_token_valid tok.expiry now refresh_buffer_minutes = false →
        tok.refresh_token ≠ "" → cap tok.refresh_token = Except.error e →
        ensure_valid_token now cap (some tok) = ⟨none, some tok, 1⟩) := by
  refine ⟨rfl, ?_, ?_⟩
  · intro hvalid hrt
    simp [ensure_valid_token, hvalid, hrt]
  · intro hvalid hrt hcap
    simp [ensure_valid_token, hvalid, hrt, hcap]

/-- Claim C2 (witness for the amended claim): concrete instances of the
three failure cases. -/
theorem ensure_valid_failures_collapse_witness :
    (ensure_valid_token 0 (fun _ => Except.error "boom") none = ⟨none, none, 0⟩)
    ∧ (ensure_valid_token 0 (fun _ => Except.error "boom")
        (some ⟨"t1", "u1", "google", "atk", "", 2⟩) = ⟨none, some ⟨"t1", "u1", "google", "atk", "", 2⟩, 0⟩)
    ∧ (ensure_valid_token 0 (fun _ => Except.error "boom")
        (some ⟨"t1", "u1", "google", "atk", "rtk", 2⟩)
          = ⟨none, some ⟨"t1", "u1", "google", "atk", "rtk", 2⟩, 1⟩) :=
  ⟨(ensure_valid_failures_collapse 0 (fun _ => Except.error "boom")
      ⟨"t1", "u1", "google", "atk", "", 2⟩ "boom").1,
   (ensure_valid_failures_collapse 0 (fun _ => Except.error "boom")
      ⟨"t1", "u1", "google", "atk", "", 2⟩ "boom").2.1 (by decide) rfl,
   (ensure_valid_failures_collapse 0 (fun _ => Except.error "boom")
      ⟨"t1", "u1", "google", "atk", "rtk", 2⟩ "boom").2.2 (by decide) (by decide) rfl⟩

/-! ## Claim C10 -/

/-- Claim C10: reading back a stored campaign document that lacks the
auto-reply configuration fields yields `auto_reply_enabled = true` and
`max_replies_per_thread = 5`; when the fields are present their stored
values are used. -/
theorem document_to_campaign_defaults (doc : CampaignDoc) :
    (doc.auto_reply_enabled = none → (document_to_campaign doc).auto_reply_enabled = true)
    ∧ (doc.max_replies_per_thread = none → (document_to_campaign doc).max_replies_per_thread = 5)
    ∧ (∀ b, doc.auto_reply_enabled = some b → (document_to_campaign doc).auto_reply_enabled = b)
    ∧ (∀ n, doc.max_replies_per_thread = some n →
        (document_to_campaign doc).max_replies_per_thread = n) := by
  refine ⟨fun h => ?_, fun h => ?_, fun b h => ?_, fun n h => ?_⟩ <;>
    simp [document_to_campaign, h]

/-- Claim C10 (witness): a concrete legacy document with both auto-reply
fields absent reads back as enabled with a cap of 5. -/
theorem document_to_campaign_defaults_witness :
    (document_to_campaign
      { id := "c1", user_id := "u1", name := "n", csv_source := "s",
        template_id := "t", prompt_id := none, status := "queued",
        total_contacts := 0, processed := 0, sent := 0, failed := 0,
        trigger_run_id := none, error_message := none,
        auto_reply_enabled := none, auto_reply_subject := none,
        auto_reply_body := none, max_replies_per_thread := none,
        replies_count := none, created_at := 0, started_at := none,
        completed_at := none, updated_at := 0 }).auto_reply_enabled = true
    ∧ (document_to_campaign
      { id := "c1", user_id := "u1", name := "n", csv_source := "s",
        template_id := "t", prompt_id := none, status := "queued",
        total_contacts := 0, processed := 0, sent := 0, failed := 0,
        trigger_run_id := none, error_message := none,
        auto_reply_enabled := none, auto_reply_subject := none,
        auto_reply_body := none, max_replies_per_thread := none,
        replies_count := none, created_at := 0, started_at := none,
        completed_at := none, updated_at := 0 }).max_replies_per_thread = 5 :=
  ⟨(document_to_campaign_defaults _).1 rfl, (document_to_campaign_defaults _).2.1 rfl⟩

/-! ## Claim C1 -/

/-- One `/internal/record-auto-reply` call transforms the targeted
conversation by exactly the `increment_auto_replies` document update. -/
theorem get_conv_after_record_auto_reply (req : RecordAutoReplyRequest)
    (now : Time) (st : Store) :
    get_conv_by_id (record_auto_reply req now st) req.conversation_id
      = (get_conv_by_id st req.conversation_id).map (increment_auto_replies_doc now) := by
  have h := find?_map_keyed Conversation.id req.conversation_id
    (increment_auto_replies_doc now) (fun _ => rfl) st.conversations
  simpa [record_auto_reply, add_message, increment_auto_replies,
    find_one_and_update_conv, get_conv_by_id] using h

/-- Iterating the route applies the document update `N` times. -/
theorem get_conv_after_record_auto_reply_iterate (req : RecordAutoReplyRequest)
    (now : Time) (st : Store) (N : Nat) :
    get_conv_by_id ((record_auto_reply req now)^[N] st) req.conversation_id
      = (get_conv_by_id st req.conversation_id).map
          ((increment_auto_replies_doc now)^[N]) := by
  induction N with
  | zero => simp
  | succ n ih =>
    rw [Function.iterate_succ_apply', get_conv_after_record_auto_reply, ih,
      Option.map_map, Function.iterate_succ']

/-- `increment_auto_replies_doc` adds exactly one per application. -/
theorem auto_replies_sent_iterate (now : Time) (c : Conversation) (N : Nat) :
    ((increment_auto_replies_doc now)^[N] c).auto_replies_sent
      = c.auto_replies_sent + N := by
  induction N with
  | zero => rfl
  | succ n ih =>
    rw [Function.iterate_succ_apply', increment_auto_replies_doc, ih]
    simp +arith

/-- The single gated step preserves the reply cap: the policy only lets the
increment through while the count is strictly below the cap. -/
theorem gated_auto_reply_step_preserves_cap (camp : Campaign) (now : Time)
    (c : Conversation) (h : c.auto_replies_sent ≤ camp.max_replies_per_thread) :
    (gated_auto_reply_step camp now c).auto_replies_sent
      ≤ camp.max_replies_per_thread := by
  unfold gated_auto_reply_step
  by_cases hs : should_auto_reply camp c = true
  · have hlt : c.auto_replies_sent < camp.max_replies_per_thread := by
      unfold should_auto_reply at hs
      simp only [Bool.and_eq_true, decide_eq_true_eq] at hs
      exact hs.1.2
    rw [if_pos hs]
    show c.auto_replies_sent + 1 ≤ camp.max_replies_per_thread
    omega
  · rw [if_neg hs]
    exact h

/-- Claim C1 (counterexample): nothing in the record-auto-reply operation
enforces the cap.  The concrete campaign `cappedCampaign` allows at most one
auto-reply per thread, yet after two `/internal/record-auto-reply` calls its
conversation carries `auto_replies_sent = 2 > 1`. -/
theorem record_auto_reply_cap_counterexample :
    ((get_conv_by_id (record_auto_reply autoReplyReq2 2
        (record_auto_reply autoReplyReq1 1 smallStore)) "c1").map
      Conversation.auto_replies_sent = some 2)
    ∧ cappedCampaign.max_replies_per_thread = 1 := by
  decide

/-- Claim C1 (amended): each `/internal/record-auto-reply` call increments
the conversation's `auto_replies_sent` by exactly one, unconditionally, so
after `N` calls the count has grown by `N`; the invariant
`auto_replies_sent ≤ max_replies_per_thread` is not enforced by the
operation itself and holds only when every commit is gated on the
`shouldAutoReply` policy, in which case it is preserved from any state that
satisfies it. -/
theorem record_auto_reply_count_and_gated_cap (req : RecordAutoReplyRequest)
    (now : Time) (st : Store) (c : Conversation) (camp : Campaign) (N : Nat) :
    (get_conv_by_id st req.conversation_id = some c →
      (get_conv_by_id ((record_auto_reply req now)^[N] st)
          req.conversation_id).map Conversation.auto_replies_sent
        = some (c.auto_replies_sent + N))
    ∧ (c.auto_replies_sent ≤ camp.max_replies_per_thread →
      ((gated_auto_reply_step camp now)^[N] c).auto_replies_sent
        ≤ camp.max_replies_per_thread) := by
  constructor
  · intro hc
    rw [get_conv_after_record_auto_reply_iterate, hc]
    simp [auto_replies_sent_iterate]
  · intro hinv
    induction N with
    | zero => simpa
    | succ n ih =>
      rw [Function.iterate_succ_apply']
      exact gated_auto_reply_step_preserves_cap camp now _ ih

/-- Claim C1 (witness): the amended claim at a concrete input — three gated
steps from the fresh conversation under a cap of 1 stay within the cap. -/
theorem record_auto_reply_count_and_gated_cap_witness :
    ((gated_auto_reply_step cappedCampaign 1)^[3] freshConv).auto_replies_sent
      ≤ cappedCampaign.max_replies_per_thread :=
  (record_auto_reply_count_and_gated_cap autoReplyReq1 1 emptyStore freshConv
    cappedCampaign 3).2 (by decide)

/-! ## Claim C3 -/

/-- Claim C3: the conversation-creation path of `create_email_log`, keyed by
`gmail_thread_id`, is idempotent — a second call with the same thread id
returns the very same conversation and leaves the store (in particular every
`message_count`) unchanged; and when no conversation exists for the thread it
creates one with `message_count = 1`, `auto_replies_sent = 0` and
`status = "active"`. -/
theorem get_or_create_idempotent (u camp log to_email subject body tid gm : String)
    (sent_at now now2 : Time) (st : Store) :
    ((get_or_create u camp log to_email subject body tid gm sent_at now2
        (get_or_create u camp log to_email subject body tid gm sent_at now st).2).1
      = (get_or_create u camp log to_email subject body tid gm sent_at now st).1
     ∧ (get_or_create u camp log to_email subject body tid gm sent_at now2
        (get_or_create u camp log to_email subject body tid gm sent_at now st).2).2
      = (get_or_create u camp log to_email subject body tid gm sent_at now st).2)
    ∧ (get_by_thread_id st tid = none →
        (get_or_create u camp log to_email subject body tid gm sent_at now st).1.message_count = 1
        ∧ (get_or_create u camp log to_email subject body tid gm sent_at now st).1.auto_replies_sent = 0
        ∧ (get_or_create u camp log to_email subject body tid gm sent_at now st).1.status = "active") := by
  cases h : get_by_thread_id st tid with
  | some c =>
    refine ⟨?_, fun hnone => ?_⟩
    · simp [get_or_create, h]
    · simp at hnone
  | none =>
    have hfind : List.find? (fun c => c.gmail_thread_id == tid) st.conversations = none := h
    refine ⟨?_, fun _ => ?_⟩
    · simp [get_or_create, get_by_thread_id, create_conversation, add_message,
        hfind, List.find?]
    · simp [get_or_create, get_by_thread_id, create_conversation, add_message,
        hfind, List.find?]

/-- Claim C3 (witness): creating from the empty store yields the documented
initial conversation state. -/
theorem get_or_create_idempotent_witness :
    (get_or_create "u1" "camp1" "l1" "a@b.c" "s" "b" "th1" "gm1" 0 0 emptyStore).1.message_count = 1
    ∧ (get_or_create "u1" "camp1" "l1" "a@b.c" "s" "b" "th1" "gm1" 0 0 emptyStore).1.auto_replies_sent = 0
    ∧ (get_or_create "u1" "camp1" "l1" "a@b.c" "s" "b" "th1" "gm1" 0 0 emptyStore).1.status = "active" :=
  (get_or_create_idempotent "u1" "camp1" "l1" "a@b.c" "s" "b" "th1" "gm1" 0 0 0
    emptyStore).2 (by decide)

/-! ## Claim C4 -/

/-- After `record_reply`, the recorded provider message id exists in the
ledger. -/
theorem message_exists_after_record_reply (req : RecordReplyRequest)
    (now : Time) (st : Store) :
    message_exists req.gmail_message_id (record_reply req now st) = true := by
  simp only [record_reply, add_message, update_on_reply, increment_replies_count,
    find_one_and_update_conv, find_one_and_update_campaign, message_exists,
    List.countP_cons]
  simp

/-- Claim C4: appending a message makes `message_exists` true for its
provider message id; and when every `record_reply` is gated on a prior
`message_exists` check (the caller convention the spec names), processing
the same provider message id twice is a no-op the second time — the whole
store, hence in particular the conversation's `message_count` and the
campaign's `replies_count`, is unchanged by the repeat. -/
theorem message_ledger_dedup (args : AddMessageArgs) (req : RecordReplyRequest)
    (now now2 : Time) (st st2 : Store) :
    (message_exists args.gmail_message_id (add_message args now st).2 = true)
    ∧ (gated_record_reply req now2 (gated_record_reply req now st2)
        = gated_record_reply req now st2) := by
  constructor
  · simp [add_message, message_exists, List.countP_cons]
  · by_cases h : message_exists req.gmail_message_id st2 = true
    · simp [gated_record_reply, h]
    · have hex := message_exists_after_record_reply req now st2
      simp [gated_record_reply, h, hex]

/-! ## Claim C7 -/

/-- Claim C7 (counterexample): `update_progress` performs no
`processed ≤ total_contacts` sanity check.  With a single-contact campaign it
silently stores `processed = 5` and reports success. -/
theorem update_progress_no_sanity_check_counterexample :
    ((update_progress "camp1" 5 4 1 7 smallStore).1.map
        (fun c => (c.processed, c.total_contacts)) = some (5, 1))
    ∧ ((update_progress "camp1" 5 4 1 7 smallStore).2.campaigns.map
        (fun c => c.processed) = [5]) := by
  decide

/-- Claim C7 (amended): `update_progress` overwrites the campaign's
processed/sent/failed counters with the given absolute values — the stored
counters after the call are exactly the arguments, independent of the
previous values, so repeating the identical call (even at a later timestamp)
leaves every campaign's counters unchanged.  No `processed ≤ total_contacts`
check is performed. -/
theorem update_progress_overwrite_idempotent (st : Store) (cid : String)
    (p s f : Nat) (now now2 : Time) :
    ((update_progress cid p s f now st).1.map
        (fun c => (c.processed, c.sent, c.failed))
      = (get_campaign_by_id st cid).map (fun _ => (p, s, f)))
    ∧ ((update_progress cid p s f now2 (update_progress cid p s f now st).2).2.campaigns.map
        (fun c => (c.processed, c.sent, c.failed))
      = (update_progress cid p s f now st).2.campaigns.map
        (fun c => (c.processed, c.sent, c.failed))) := by
  constructor
  · cases hfind : st.campaigns.find? (fun c => c.id == cid) with
    | none =>
      simp [update_progress, find_one_and_update_campaign, get_campaign_by_id, hfind]
    | some c =>
      simp [update_progress, find_one_and_update_campaign, get_campaign_by_id,
        hfind, update_progress_doc]
  · simp only [update_progress, find_one_and_update_campaign, List.map_map]
    apply List.map_congr_left
    intro c _
    by_cases h : (c.id == cid) = true
    · simp [Function.comp, update_progress_doc, h]
    · simp [Function.comp, update_progress_doc, h]

/-! ## Claim C8 -/

/-- Claim C8 (counterexample): `closed` is not terminal — `update_status`
moves the concrete closed conversation straight back to `active`. -/
theorem update_status_closed_counterexample :
    ((get_conv_by_id closedStore "c1").map Conversation.status = some "closed")
    ∧ ((get_conv_by_id (update_status "c1" "active" 9 closedStore).2 "c1").map
        Conversation.status = some "active") := by
  decide

/-- Claim C8 (amended): `update_status` overwrites the conversation's status
unconditionally — whatever the stored conversation's current status
(including `closed`), after the call it carries exactly the requested
status.  The `closed`-is-terminal rule of the spec's state machine is a
caller convention, not enforced by any core operation. -/
theorem update_status_unconditional_overwrite (st : Store) (cid s : String)
    (now : Time) (c : Conversation) (h : get_conv_by_id st cid = some c) :
    (update_status cid s now st).1 = some (update_status_doc s now c)
    ∧ get_conv_by_id (update_status cid s now st).2 cid
        = some (update_status_doc s now c) := by
  simp only [get_conv_by_id] at h
  constructor
  · simp only [update_status, find_one_and_update_conv, h, Option.map_some']
  · have hk := find?_map_keyed Conversation.id cid (update_status_doc s now)
      (fun _ => rfl) st.conversations
    simp only [update_status, find_one_and_update_conv, get_conv_by_id]
    rw [hk, h, Option.map_some']

/-- Claim C8 (witness): the overwrite theorem applied to the concrete closed
conversation. -/
theorem update_status_unconditional_overwrite_witness :
    (update_status "c1" "paused" 9 closedStore).1
      = some (update_status_doc "paused" 9 { freshConv with status := "closed" })
    ∧ get_conv_by_id (update_status "c1" "paused" 9 closedStore).2 "c1"
      = some (update_status_doc "paused" 9 { freshConv with status := "closed" }) :=
  update_status_unconditional_overwrite closedStore "c1" "paused" 9
    { freshConv with status := "closed" } (by decide)

/-! ## Claim C9 -/

/-- Claim C9 (counterexample): the ledger itself truncates — with 101 stored
messages in one conversation, `get_messages` at its default arguments
returns only 100 of them. -/
theorem get_messages_limit_counterexample :
    (manyMessagesStore.messages.filter (fun m => m.conversation_id == "c1")).length = 101
    ∧ (get_messages_default manyMessagesStore "c1").length = 100 := by
  decide

/-- Claim C9 (amended): `get_messages` returns messages of the requested
conversation ordered oldest first by `sent_at`, but the ledger itself
truncates the result to `limit` entries (default 100) after `skip`; only the
body-length truncation is left to the caller. -/
theorem get_messages_sorted_truncated (st : Store) (cid : String)
    (skip limit : Nat) :
    (get_messages st cid skip limit).Sorted (fun a b => a.sent_at ≤ b.sent_at)
    ∧ (get_messages st cid skip limit).length ≤ limit
    ∧ (∀ m ∈ get_messages st cid skip limit, m.conversation_id == cid) := by
  refine ⟨?_, ?_, ?_⟩
  · have hs : ((st.messages.filter (fun m => m.conversation_id == cid)).insertionSort
        (fun a b => a.sent_at ≤ b.sent_at)).Sorted (fun a b => a.sent_at ≤ b.sent_at) :=
      List.sorted_insertionSort _ _
    exact List.Pairwise.sublist
      ((List.take_sublist _ _).trans (List.drop_sublist _ _)) hs
  · exact List.length_take_le _ _
  · intro m hm
    have hm2 : m ∈ (st.messages.filter (fun m => m.conversation_id == cid)).insertionSort
        (fun a b => a.sent_at ≤ b.sent_at) :=
      ((List.take_sublist _ _).trans (List.drop_sublist _ _)).subset hm
    have hm3 : m ∈ st.messages.filter (fun m => m.conversation_id == cid) :=
      (List.perm_insertionSort _ _).mem_iff.mp hm2
    exact (List.mem_filter.mp hm3).2

end LeadContact
